import Mathlib

/-!
Verification of the runtime type-checking library in src/TypeChecker.ts.

The library builds composable boolean predicates ("type checkers") over
arbitrary JavaScript runtime values.  This file gives a shallow embedding of
the JavaScript value universe and of each checker and combinator the claims
refer to, translated directly from the TypeScript source, and proves or
refutes the specification's claims about them.
-/

/-- Universe of JavaScript runtime values.  Numbers are modelled as integers
(the examples in play are all integer-valued), strings as Lean strings,
symbols and functions by an opaque identity (a function body cannot occur
inside an inductive type; where a value is actually called, the behaviour of
function values is supplied externally, see jsApply).  Plain objects are
modelled as their own enumerable string-keyed fields in enumeration order;
arrays are a separate constructor but are object-kind for typeof. -/
inductive JSVal where
  | undefined
  | null
  | bool (b : Bool)
  | num (n : Int)
  | str (s : String)
  | bigint (n : Int)
  | sym (id : Nat)
  | func (id : Nat)
  | obj (fields : List (String × JSVal))
  | arr (elems : List JSVal)

/-- The JavaScript typeof operator.  Both null and arrays are object-kind. -/
def jsTypeof : JSVal → String
  | .undefined => "undefined"
  | .null => "object"
  | .bool _ => "boolean"
  | .num _ => "number"
  | .str _ => "string"
  | .bigint _ => "bigint"
  | .sym _ => "symbol"
  | .func _ => "function"
  | .obj _ => "object"
  | .arr _ => "object"

/-- JavaScript truthiness of a value (used where the source tests a value in
boolean position, e.g. the callback result inside Array.prototype.every). -/
def truthy : JSVal → Bool
  | .undefined => false
  | .null => false
  | .bool b => b
  | .num n => !(n == 0)
  | .str s => !(s == "")
  | .bigint n => !(n == 0)
  | .sym _ => true
  | .func _ => true
  | .obj _ => true
  | .arr _ => true

/-- The library's TypeChecker contract: a one-argument boolean predicate over
any runtime value (source: type TypeChecker of T = (val: any) => val is T). -/
abbrev Checker := JSVal → Bool

/-- Errors a modelled computation can throw.  typeError carries the message of
a TypeError the library constructs itself; notCallable models the TypeError a
JavaScript engine raises when a non-function value is called; and
bigintUnserializable models the TypeError JSON.stringify raises on a bigint
(its exact message is engine-defined, so it is not modelled as text). -/
inductive JSError where
  | typeError (msg : String)
  | notCallable
  | bigintUnserializable

-- Primitive checkers, translated from the source one-liners.

/-- Source: isNever, always false. -/
def isNever : Checker := fun _ => false

/-- Source: isAny, always true. -/
def isAny : Checker := fun _ => true

/-- Source: isBigint, typeof v === "bigint". -/
def isBigint : Checker := fun v => jsTypeof v == "bigint"

/-- Source: isBoolean, typeof v === "boolean". -/
def isBoolean : Checker := fun v => jsTypeof v == "boolean"

/-- Source: isFunction, typeof v === "function". -/
def isFunction : Checker := fun v => jsTypeof v == "function"

/-- Source: isNull, v === null. -/
def isNull : Checker := fun v =>
  match v with
  | .null => true
  | _ => false

/-- Source: isNumber, typeof v === "number". -/
def isNumber : Checker := fun v => jsTypeof v == "number"

/-- Source: isObject, typeof v === "object" && v !== null.  The second
conjunct is the match, which is true exactly when v is not null. -/
def isObject : Checker := fun v =>
  (jsTypeof v == "object") &&
    (match v with
      | .null => false
      | _ => true)

/-- Source: isString, typeof v === "string". -/
def isString : Checker := fun v => jsTypeof v == "string"

/-- Source: isSymbol, typeof v === "symbol". -/
def isSymbol : Checker := fun v => jsTypeof v == "symbol"

/-- Source: isUndefined, v === undefined. -/
def isUndefined : Checker := fun v =>
  match v with
  | .undefined => true
  | _ => false

-- JSON serialization, modelling JSON.stringify as used by cast.

/-- Lower-case hexadecimal digit, for JSON escapes of control characters. -/
def hexDigit (n : Nat) : Char :=
  if n < 10 then Char.ofNat (48 + n) else Char.ofNat (87 + n)

/-- JSON escape of a single character inside a quoted string, as
JSON.stringify performs it. -/
def jsonEscapeChar (c : Char) : String :=
  if c == '"' then "\\\""
  else if c == '\\' then "\\\\"
  else if c == '\n' then "\\n"
  else if c == '\r' then "\\r"
  else if c == '\t' then "\\t"
  else if c == '\x08' then "\\b"
  else if c == '\x0c' then "\\f"
  else if c.toNat < 32 then
    "\\u00" ++ String.singleton (hexDigit (c.toNat / 16))
      ++ String.singleton (hexDigit (c.toNat % 16))
  else String.singleton c

/-- JSON quoting of a string, as JSON.stringify renders string values and
object keys. -/
def jsonQuote (s : String) : String :=
  "\"" ++ String.join (s.toList.map jsonEscapeChar) ++ "\""

mutual

/-- JSON.stringify on the modelled value universe.  It returns none where
JSON.stringify returns undefined (top-level undefined, functions, symbols),
and throws a TypeError on bigints.  Object fields whose value serializes to
undefined are skipped; array elements that would serialize to undefined are
rendered as null. -/
def jsonStringify : JSVal → Except JSError (Option String)
  | .undefined => .ok none
  | .null => .ok (some "null")
  | .bool b => .ok (some (if b then "true" else "false"))
  | .num n => .ok (some (toString n))
  | .str s => .ok (some (jsonQuote s))
  | .bigint _ => .error .bigintUnserializable
  | .sym _ => .ok none
  | .func _ => .ok none
  | .obj fields => do
      let parts ← jsonStringifyFields fields
      .ok (some ("\x7b" ++ String.intercalate "," parts ++ "\x7d"))
  | .arr elems => do
      let parts ← jsonStringifyElems elems
      .ok (some ("[" ++ String.intercalate "," parts ++ "]"))

/-- Serialization of an object's fields: each rendered as quoted key, colon,
rendered value; fields whose value serializes to undefined are skipped. -/
def jsonStringifyFields : List (String × JSVal) → Except JSError (List String)
  | [] => .ok []
  | (k, v) :: rest => do
      let r ← jsonStringify v
      let tail ← jsonStringifyFields rest
      match r with
      | none => .ok tail
      | some s => .ok ((jsonQuote k ++ ":" ++ s) :: tail)

/-- Serialization of an array's elements; an element that would serialize to
undefined is rendered as null. -/
def jsonStringifyElems : List JSVal → Except JSError (List String)
  | [] => .ok []
  | v :: rest => do
      let r ← jsonStringify v
      let tail ← jsonStringifyElems rest
      .ok ((r.getD "null") :: tail)

end

/-- JavaScript truthiness of the optional expectedTypeName string, as tested
by the ternary in cast: undefined and the empty string are falsy. -/
def optStringTruthy : Option String → Bool
  | none => false
  | some s => !(s == "")

namespace TypeChecker

/-- Source TypeChecker.cast: returns a function that, for a value accepted by
the checker, returns it unchanged; otherwise it throws a TypeError whose
message embeds the JSON-rendered value (a template literal renders the
undefined result of JSON.stringify as the text undefined) and, when the
expectedTypeName argument is truthy, that name.  An error thrown by
JSON.stringify itself (a bigint value) propagates out of the error
construction. -/
def cast (checker : Checker) (expectedTypeName : Option String) :
    JSVal → Except JSError JSVal :=
  fun v =>
    if !(checker v) then
      match jsonStringify v with
      | .error e => .error e
      | .ok r =>
          let rendered := r.getD "undefined"
          .error (.typeError (
            if optStringTruthy expectedTypeName then
              "value " ++ rendered ++ " is not of type " ++ expectedTypeName.getD ""
            else
              "value " ++ rendered ++ " is of an invalid type"))
    else .ok v

end TypeChecker

/-- The message of the TypeError a cast result carries, if any; none when the
computation succeeded or failed with an engine-raised error instead of a
library-constructed TypeError message. -/
def thrownTypeErrorMessage : Except JSError JSVal → Option String
  | .error (.typeError m) => some m
  | _ => none

-- Union combinator.

/-- The loop inside the checker getUnionOf returns: for each constituent in
order, return true as soon as one accepts the value; fall through to false. -/
def unionLoop : List Checker → JSVal → Bool
  | [], _ => false
  | c :: rest, v => if c v then true else unionLoop rest v

/-- Source getUnionOf: the returned checker tries each constituent checker on
the value, left to right, short-circuiting on the first success. -/
def getUnionOf (checkers : List Checker) : Checker :=
  fun v => unionLoop checkers v

-- Intersection combinator.

/-- The JavaScript call expression f applied to x, for an arbitrary runtime
value f: calling a non-function value throws a TypeError; calling a function
value yields whatever behaviour the ambient environment env assigns to its
identity. -/
def jsApply (env : Nat → JSVal → Except JSError JSVal) :
    JSVal → JSVal → Except JSError JSVal
  | .func id, arg => env id arg
  | _, _ => .error .notCallable

/-- Array.prototype.every with a possibly-throwing callback: true on the
empty list, stops with false on the first falsy callback result, and
propagates a thrown error. -/
def jsEvery {α : Type} (f : α → Except JSError Bool) : List α → Except JSError Bool
  | [] => .ok true
  | a :: rest =>
      match f a with
      | .error e => .error e
      | .ok b => if b then jsEvery f rest else .ok false

/-- Source getIntersectionOf: the returned checker evaluates
checkers.every of the callback taking c to v applied to c — note the body
applies the VALUE to each checker, v(c), not the checker to the value.  The
environment env gives the behaviour of calling function values, and reify
gives the runtime function value representing each checker (both are
irrelevant whenever the tested value is not a function: the call then throws
a TypeError before either is consulted). -/
def getIntersectionOf (env : Nat → JSVal → Except JSError JSVal)
    (reify : Checker → JSVal) (checkers : List Checker) (v : JSVal) :
    Except JSError Bool :=
  jsEvery (fun c => (jsApply env v (reify c)).map truthy) checkers

/-- Modelled from the spec: the intersection checker section 4.3 describes, a
checker returning true iff ALL constituents return true on the value,
evaluated left to right.  Stated for comparison with the source's
getIntersectionOf. -/
def intersectionOfSpec (checkers : List Checker) : Checker :=
  fun v => checkers.all (fun c => c v)

-- Property access and the mapped (struct) combinator.

/-- Lookup of an own field of a plain object; a missing field reads as
undefined. -/
def lookupField : List (String × JSVal) → String → JSVal
  | [], _ => .undefined
  | (k2, v) :: rest, k => if k2 == k then v else lookupField rest k

/-- Numeric value of a list of decimal digit characters. -/
def digitsToNat (cs : List Char) : Nat :=
  cs.foldl (fun acc c => acc * 10 + (c.toNat - 48)) 0

/-- Canonical array-index decoding of a property key: the decimal rendering
of a natural number, without leading zeros. -/
def decodeArrayIndex (s : String) : Option Nat :=
  match s.toList with
  | [] => none
  | ['0'] => some 0
  | c :: rest =>
      if c.isDigit && c != '0' && rest.all Char.isDigit then
        some (digitsToNat (c :: rest))
      else none

/-- Property access on an array value: its elements at canonical indices and
its length; other keys read as undefined. -/
def arrayProp (elems : List JSVal) (k : String) : JSVal :=
  if k == "length" then .num elems.length
  else
    match decodeArrayIndex k with
    | some i => elems.getD i .undefined
    | none => .undefined

/-- The property read v[k] as performed by getMappedChecker.  In the source
it only ever runs on object-kind values (the isObject guard comes first);
on other values it is modelled as reading undefined. -/
def getProp : JSVal → String → JSVal
  | .obj fields, k => lookupField fields k
  | .arr elems, k => arrayProp elems k
  | _, _ => .undefined

/-- Source getMappedChecker: the returned checker requires isObject of the
value, then checks, for each key declared in the mapping in order, that the
value's property at that key satisfies the key's checker. -/
def getMappedChecker (mapping : List (String × Checker)) : Checker :=
  fun v => isObject v && mapping.all (fun kc => kc.2 (getProp v kc.1))

-- Record combinator.

/-- Object.keys on the modelled universe: an object's own enumerable field
names, an array's element indices rendered as strings, and the empty list on
every other value (in the source this only runs behind an isObject guard). -/
def recordKeys : JSVal → List String
  | .obj fields => fields.map Prod.fst
  | .arr elems => (List.range elems.length).map (fun i => toString i)
  | _ => []

/-- Object.values on the modelled universe, mirroring recordKeys. -/
def recordValues : JSVal → List JSVal
  | .obj fields => fields.map Prod.snd
  | .arr elems => elems
  | _ => []

/-- Source getRecordChecker: the returned checker requires isObject of the
value, then that every own enumerable key (a string) satisfies the
key-checker and every own enumerable value satisfies the value-checker. -/
def getRecordChecker (keyChecker valueChecker : Checker) : Checker :=
  fun v =>
    isObject v
      && (recordKeys v).all (fun k => keyChecker (.str k))
      && (recordValues v).all valueChecker

-- Enum combinator.

/-- A value of an enum description: enums map names to strings or numbers. -/
inductive EnumVal where
  | strV (s : String)
  | numV (n : Int)

/-- JavaScript strict equality between the tested value and an enum value,
as Array.prototype.includes compares them: same primitive kind and same
content; everything else compares unequal. -/
def evEq : JSVal → EnumVal → Bool
  | .str s, .strV t => s == t
  | .num n, .numV m => n == m
  | _, _ => false

/-- One or more decimal digits, returning the rest of the input, with any
further digits consumed greedily; none if the input does not start with a
digit.  This and the functions below implement the source's NUMBER_REGEX,
anchored at both ends. -/
def matchDigits0 : List Char → List Char
  | c :: rest => if c.isDigit then matchDigits0 rest else c :: rest
  | [] => []

/-- One-or-more-digits matcher underlying each digit group of NUMBER_REGEX. -/
def matchDigits1 : List Char → Option (List Char)
  | c :: rest => if c.isDigit then some (matchDigits0 rest) else none
  | [] => none

/-- The optional fraction group of NUMBER_REGEX: a dot followed by one or
more digits, or nothing. -/
def matchFraction : List Char → Option (List Char)
  | '.' :: rest => matchDigits1 rest
  | cs => some cs

/-- The optional exponent group of NUMBER_REGEX: the letter e, an optional
minus sign, and one or more digits, or nothing. -/
def matchExponent : List Char → Option (List Char)
  | 'e' :: rest =>
      match rest with
      | '-' :: rest2 => matchDigits1 rest2
      | _ => matchDigits1 rest
  | cs => some cs

/-- The source's NUMBER_REGEX test: an optional leading minus, one or more
digits, an optional fraction, and an optional exponent, anchored to consume
the whole string.  The regex's groups are deterministic here, so this direct
matcher is equivalent to the backtracking semantics. -/
def numberRegexTest (s : String) : Bool :=
  let cs :=
    match s.toList with
    | '-' :: rest => rest
    | cs => cs
  match matchDigits1 cs with
  | none => false
  | some rest =>
      match matchFraction rest with
      | none => false
      | some rest2 =>
          match matchExponent rest2 with
          | none => false
          | some rest3 => rest3.isEmpty

/-- Source getEnumChecker: collect the enum's candidate values by dropping
every key that matches NUMBER_REGEX (the reverse-index aliases of
integer-backed enums) and reading the remaining keys' values; the returned
checker tests strict-equality membership of the tested value among those
candidates. -/
def getEnumChecker (enumType : List (String × EnumVal)) : Checker :=
  fun v =>
    ((enumType.filter (fun kv => !(numberRegexTest kv.1))).map Prod.snd).any
      (fun ev => evEq v ev)

-- Kinds, for stating mutual exclusivity of the primitive checkers.

/-- The runtime kind of a value: the typeof categories with object-kind split
into null and proper objects, matching the specification's ten primitive
categories with the null/undefined distinction. -/
inductive JSKind where
  | bigintKind
  | booleanKind
  | functionKind
  | nullKind
  | numberKind
  | objectKind
  | stringKind
  | symbolKind
  | undefinedKind
deriving DecidableEq

/-- The kind of each modelled value. -/
def kindOf : JSVal → JSKind
  | .undefined => .undefinedKind
  | .null => .nullKind
  | .bool _ => .booleanKind
  | .num _ => .numberKind
  | .str _ => .stringKind
  | .bigint _ => .bigintKind
  | .sym _ => .symbolKind
  | .func _ => .functionKind
  | .obj _ => .objectKind
  | .arr _ => .objectKind

-- Concrete descriptions used by the specification's examples.

/-- The mapping of the intersection example: a single key a checked by
isNumber. -/
def mappingA : List (String × Checker) := [("a", isNumber)]

/-- The mapping of the struct example: key a checked by isNumber and key b by
isString. -/
def mappingAB : List (String × Checker) := [("a", isNumber), ("b", isString)]

/-- The runtime object of the integer-backed enum with members Red = 0 and
Green = 1: the forward name-to-value entries together with the auto-generated
reverse-index aliases, in JavaScript key enumeration order (integer-like keys
first). -/
def colorEnum : List (String × EnumVal) :=
  [("0", .strV "Red"), ("1", .strV "Green"), ("Red", .numV 0), ("Green", .numV 1)]

-- Helper lemmas.

/-- The union loop agrees with the logical any over the constituent list. -/
theorem unionLoop_eq_any (checkers : List Checker) (v : JSVal) :
    unionLoop checkers v = checkers.any (fun c => c v) := by
  induction checkers with
  | nil => rfl
  | cons c rest ih =>
      by_cases h : c v <;> simp [unionLoop, h, ih]

/-- A value with no own enumerable keys has no own enumerable values. -/
theorem recordValues_nil_of_recordKeys_nil (v : JSVal) (h : recordKeys v = []) :
    recordValues v = [] := by
  cases v <;> simp_all [recordKeys, recordValues]

-- Claim theorems.

/-- C7: the checker returned by getIntersectionOf applied to zero checkers
returns true for every value: the loop body is never entered, so the empty
intersection is the always-true checker, whatever the behaviour of function
values and however checkers are reified. -/
theorem intersection_empty_always_true (env : Nat → JSVal → Except JSError JSVal)
    (reify : Checker → JSVal) (v : JSVal) :
    getIntersectionOf env reify [] v = Except.ok true := rfl

/-- C1 (code bug): the checker built by getIntersectionOf does not apply each
constituent checker to the value; its body evaluates v applied to c, so on
the specification's own example value (the object with field a = 1, which is
not callable) it throws a TypeError instead of returning true, whatever the
behaviour of function values.  The spec-modelled intersection returns the
results the claim states on all three example inputs. -/
theorem intersection_applies_value_to_checker
    (env : Nat → JSVal → Except JSError JSVal) (reify : Checker → JSVal) :
    getIntersectionOf env reify [isObject, getMappedChecker mappingA]
        (JSVal.obj [("a", JSVal.num 1)]) = Except.error JSError.notCallable
    ∧ intersectionOfSpec [isObject, getMappedChecker mappingA]
        (JSVal.obj [("a", JSVal.num 1)]) = true
    ∧ intersectionOfSpec [isObject, getMappedChecker mappingA]
        (JSVal.obj [("a", JSVal.str "x")]) = false
    ∧ intersectionOfSpec [isObject, getMappedChecker mappingA] JSVal.null = false :=
  ⟨rfl, rfl, rfl, rfl⟩

/-- C2 (code bug): a checker returned by getIntersectionOf is not safe to
call: applied to any non-callable value (here the number 5, with the single
constituent isNumber) it throws a TypeError, because the body calls the value
as a function, contradicting the contract that checkers always return a
boolean and never throw. -/
theorem intersection_checker_throws
    (env : Nat → JSVal → Except JSError JSVal) (reify : Checker → JSVal) :
    getIntersectionOf env reify [isNumber] (JSVal.num 5)
      = Except.error JSError.notCallable := rfl

/-- C4: the checker returned by getUnionOf returns true exactly when at least
one constituent checker accepts the value (the loop tries them left to right
and returns at the first success), and the union of zero checkers is the
always-false checker. -/
theorem union_checker_spec :
    (∀ (checkers : List Checker) (v : JSVal),
      getUnionOf checkers v = true ↔ ∃ c ∈ checkers, c v = true)
    ∧ (∀ v : JSVal, getUnionOf [] v = false) := by
  constructor
  · intro checkers v
    rw [getUnionOf, unionLoop_eq_any, List.any_eq_true]
  · intro v
    rfl

/-- C5: the checker returned by getMappedChecker accepts a value exactly when
the value is object-kind and not null and, for every key declared in the
mapping, the value's property at that key (undefined when absent) satisfies
that key's checker; extra keys are ignored and non-objects are rejected.  The
concrete conjuncts are the specification's examples, plus the fact that a
missing declared key reads as undefined. -/
theorem mapped_checker_spec :
    (∀ (mapping : List (String × Checker)) (v : JSVal),
      getMappedChecker mapping v = true ↔
        (isObject v = true ∧ ∀ kc ∈ mapping, kc.2 (getProp v kc.1) = true))
    ∧ getMappedChecker mappingAB
        (JSVal.obj [("a", JSVal.num 1), ("b", JSVal.str "x"), ("c", JSVal.bool true)])
        = true
    ∧ getMappedChecker mappingAB (JSVal.obj [("a", JSVal.num 1)]) = false
    ∧ getMappedChecker mappingAB JSVal.null = false
    ∧ getProp (JSVal.obj [("a", JSVal.num 1)]) "b" = JSVal.undefined := by
  refine ⟨?_, rfl, rfl, rfl, rfl⟩
  intro mapping v
  simp [getMappedChecker, Bool.and_eq_true, List.all_eq_true]

/-- C3 (amended): for every checker, optional name and value whose JSON
rendering does not throw (bigint-free, which also covers the cycle-free
guarantee of this value universe): cast returns an accepted value unchanged,
and on a rejected value throws a TypeError whose message is
value, the rendered value, is not of type, the name, when a nonempty name was
supplied, and value, the rendered value, is of an invalid type when the name
was omitted or empty. -/
theorem cast_behavior (c : Checker) (name : Option String) (v : JSVal)
    (r : Option String) (h : jsonStringify v = Except.ok r) :
    (c v = true → TypeChecker.cast c name v = Except.ok v)
    ∧ (c v = false → TypeChecker.cast c name v = Except.error (JSError.typeError
        (match name with
          | some n =>
              if n == "" then "value " ++ r.getD "undefined" ++ " is of an invalid type"
              else "value " ++ r.getD "undefined" ++ " is not of type " ++ n
          | none => "value " ++ r.getD "undefined" ++ " is of an invalid type"))) := by
  constructor
  · intro hc
    simp [TypeChecker.cast, hc]
  · intro hc
    simp only [TypeChecker.cast, hc, Bool.not_false, if_pos, h]
    cases name with
    | none => simp [optStringTruthy]
    | some n =>
        by_cases hn : n == ""
        · simp_all [optStringTruthy]
        · simp_all [optStringTruthy]

/-- C3 witness: the specification's own cast examples, obtained from
cast_behavior at the checker isNumber with name number: the rejected string
x produces the stated message, and the accepted number 5 is returned
unchanged. -/
theorem cast_behavior_witness :
    TypeChecker.cast isNumber (some "number") (JSVal.str "x")
      = Except.error (JSError.typeError "value \"x\" is not of type number")
    ∧ TypeChecker.cast isNumber (some "number") (JSVal.num 5)
      = Except.ok (JSVal.num 5) := by
  constructor
  · have h := (cast_behavior isNumber (some "number") (JSVal.str "x")
      (some "\"x\"") rfl).2 rfl
    simpa using h
  · exact (cast_behavior isNumber (some "number") (JSVal.num 5) (some "5") rfl).1 rfl

/-- C3 counterexample: the claim as stated fails on the code at two concrete
inputs.  A rejected bigint makes cast fail, but with the engine's
serialization error rather than a TypeError carrying the claimed message (the
thrown-message observer returns none); and a supplied-but-empty name yields
the no-name message because the source tests the name for truthiness, not for
presence. -/
theorem cast_behavior_counterexample :
    thrownTypeErrorMessage (TypeChecker.cast isNumber none (JSVal.bigint 1)) = none
    ∧ TypeChecker.cast isNumber (some "") (JSVal.str "x")
      = Except.error (JSError.typeError "value \"x\" is of an invalid type") :=
  ⟨rfl, rfl⟩

/-- C8 (code bug): when the rejected value is not JSON-serializable, the
construction of cast's error message itself throws: on the bigint 1 rejected
by isNumber, the serialization TypeError escapes (with or without a supplied
name) instead of any fallback rendering being used. -/
theorem cast_bigint_render_throws :
    TypeChecker.cast isNumber none (JSVal.bigint 1)
      = Except.error JSError.bigintUnserializable
    ∧ TypeChecker.cast isNumber (some "number") (JSVal.bigint 1)
      = Except.error JSError.bigintUnserializable :=
  ⟨rfl, rfl⟩

/-- C6: getEnumChecker accepts a value exactly when some enum entry whose key
does not match the numeric-literal pattern has that value, and on the
integer-backed enum with members Red = 0 and Green = 1 (whose runtime object
also carries the reverse-index aliases at keys 0 and 1) the checker accepts
the numbers 0 and 1 and rejects the number 2 and the string Red. -/
theorem enum_checker_spec :
    (∀ (e : List (String × EnumVal)) (v : JSVal),
      getEnumChecker e v = true ↔
        ∃ kv ∈ e, numberRegexTest kv.1 = false ∧ evEq v kv.2 = true)
    ∧ getEnumChecker colorEnum (JSVal.num 0) = true
    ∧ getEnumChecker colorEnum (JSVal.num 1) = true
    ∧ getEnumChecker colorEnum (JSVal.num 2) = false
    ∧ getEnumChecker colorEnum (JSVal.str "Red") = false := by
  refine ⟨?_, rfl, rfl, rfl, rfl⟩
  intro e v
  simp [getEnumChecker, List.any_eq_true, List.mem_map, List.mem_filter,
    Bool.not_eq_true']
  tauto

/-- C9: each primitive checker recognizes exactly its own runtime kind, so
the primitive checkers are mutually exclusive across the categories; in
particular isObject rejects null and accepts the empty object, isNull accepts
exactly null, and isUndefined accepts exactly undefined. -/
theorem primitive_checkers_exclusive :
    (∀ v, isBigint v = true ↔ kindOf v = JSKind.bigintKind)
    ∧ (∀ v, isBoolean v = true ↔ kindOf v = JSKind.booleanKind)
    ∧ (∀ v, isFunction v = true ↔ kindOf v = JSKind.functionKind)
    ∧ (∀ v, isNull v = true ↔ kindOf v = JSKind.nullKind)
    ∧ (∀ v, isNumber v = true ↔ kindOf v = JSKind.numberKind)
    ∧ (∀ v, isObject v = true ↔ kindOf v = JSKind.objectKind)
    ∧ (∀ v, isString v = true ↔ kindOf v = JSKind.stringKind)
    ∧ (∀ v, isSymbol v = true ↔ kindOf v = JSKind.symbolKind)
    ∧ (∀ v, isUndefined v = true ↔ kindOf v = JSKind.undefinedKind)
    ∧ isObject JSVal.null = false
    ∧ isObject (JSVal.obj []) = true
    ∧ isNull JSVal.null = true
    ∧ isNull JSVal.undefined = false
    ∧ (∀ v, isUndefined v = true ↔ v = JSVal.undefined) := by
  refine ⟨?_, ?_, ?_, ?_, ?_, ?_, ?_, ?_, ?_, rfl, rfl, rfl, rfl, ?_⟩ <;>
    intro v <;> cases v <;>
      simp [isBigint, isBoolean, isFunction, isNull, isNumber, isObject,
        isString, isSymbol, isUndefined, jsTypeof, kindOf]

/-- C10: own enumerable keys are enumerated as strings, so the key-checker
given to getRecordChecker only ever sees strings; consequently, for a
key-checker rejecting every string, the record checker accepts exactly the
object-kind values with no own enumerable keys: it rejects every object with
at least one key and accepts the empty object. -/
theorem record_checker_string_keys (keyChecker valueChecker : Checker)
    (hrej : ∀ s, keyChecker (JSVal.str s) = false) (v : JSVal) :
    getRecordChecker keyChecker valueChecker v = true ↔
      (isObject v = true ∧ recordKeys v = []) := by
  simp only [getRecordChecker, Bool.and_eq_true, List.all_eq_true]
  constructor
  · rintro ⟨⟨hobj, hkeys⟩, _⟩
    refine ⟨hobj, ?_⟩
    cases hk : recordKeys v with
    | nil => rfl
    | cons k rest =>
        have := hkeys k (by rw [hk]; exact List.mem_cons_self k rest)
        rw [hrej k] at this
        exact absurd this (by simp)
  · rintro ⟨hobj, hkeys⟩
    refine ⟨⟨hobj, ?_⟩, ?_⟩
    · intro k hk
      rw [hkeys] at hk
      exact absurd hk (List.not_mem_nil k)
    · intro x hx
      rw [recordValues_nil_of_recordKeys_nil v hkeys] at hx
      exact absurd hx (List.not_mem_nil x)

/-- C10 witness: record_checker_string_keys at the key-checker isNumber
(which rejects every string): the empty object is accepted, and an object
with the single key a is rejected. -/
theorem record_checker_string_keys_witness :
    getRecordChecker isNumber isAny (JSVal.obj []) = true
    ∧ getRecordChecker isNumber isAny (JSVal.obj [("a", JSVal.num 1)]) = false := by
  constructor
  · exact (record_checker_string_keys isNumber isAny (fun _ => rfl)
      (JSVal.obj [])).mpr ⟨rfl, rfl⟩
  · cases hb : getRecordChecker isNumber isAny (JSVal.obj [("a", JSVal.num 1)]) with
    | false => rfl
    | true =>
        have h := (record_checker_string_keys isNumber isAny (fun _ => rfl)
          (JSVal.obj [("a", JSVal.num 1)])).mp hb
        simp [recordKeys] at h
